import Mathlib

/-!
Shallow embedding of the chat front-end of `senasenasena168/chatbot`:
the client-side chat session controller (`src/components/ChatInterface.js`,
function `sendMessage` and the component's state hooks), the inbound
`/api/chat` HTTP handler (the Next.js API route), and the persistence
wrappers (`src/lib/database.js`).  React state updates are modelled as
explicit state passing; the network is modelled by passing the outcome of
the single outbound request as an explicit parameter.
-/

namespace Chatbot

/-- A message role.  The client only ever constructs the strings
`'user'` and `'assistant'`; the database schema likewise constrains
`role IN ('user', 'assistant')`. -/
inductive Role where
  | user
  | assistant
deriving DecidableEq, Repr

/-- One entry of the conversation log: `{ role, content }`. -/
structure Turn where
  role : Role
  content : String
deriving DecidableEq, Repr

/-- The seeded greeting, the initial value of the `messages` React state. -/
def initialMessages : List Turn :=
  [{ role := Role.assistant,
     content := "Hello! I'm your chatbot assistant. How can I help you today?" }]

/-- The React state of `ChatInterface`: `messages`, `input`, `isLoading`,
`autoScroll`, `darkMode`, `showSettings` (refs and purely visual state are
omitted). -/
structure ChatState where
  messages : List Turn
  input : String
  isLoading : Bool
  autoScroll : Bool
  darkMode : Bool
  showSettings : Bool
deriving DecidableEq, Repr

/-- The initial state of the component: the seeded log, empty input,
not loading, auto-scroll on, light mode, settings hidden. -/
def initialState : ChatState :=
  { messages := initialMessages
    input := ""
    isLoading := false
    autoScroll := true
    darkMode := false
    showSettings := false }

/-- The JSON body the client reads from the `/api/chat` response:
`data.message` and `data.error`, either of which may be absent. -/
structure ClientData where
  message : Option String
  error : Option String
deriving DecidableEq, Repr

/-- Outcome of the client's `fetch('/api/chat', ...)`: either the promise
rejects (network failure, caught by the `catch` block, carrying
`error.message`), or a response arrives with its `response.ok` flag and
parsed JSON body. -/
inductive FetchOutcome where
  | networkError (errMessage : String)
  | response (ok : Bool) (data : ClientData)
deriving DecidableEq, Repr

/-- A character removed by JavaScript `String.prototype.trim`:
ECMAScript WhiteSpace and LineTerminator code points. -/
def isJsWhitespaceChar (c : Char) : Bool :=
  c = ' ' || c = '\t' || c = '\n' || c = '\r' || c = '\x0B' || c = '\x0C' ||
  c = '\u00A0' || c = '\uFEFF' || c = '\u2028' || c = '\u2029'

/-- JavaScript `s.trim()`: strip leading and trailing whitespace. -/
def jsTrim (s : String) : String :=
  String.mk (((s.data.dropWhile isJsWhitespaceChar).reverse.dropWhile
    isJsWhitespaceChar).reverse)

/-- JavaScript `x || d` for an optional string `x`: `undefined` and the
empty string are falsy, so both fall through to the default. -/
def jsOrElse (x : Option String) (d : String) : String :=
  match x with
  | some s => if s = "" then d else s
  | none => d

/-- The first half of `sendMessage`, up to the `fetch` call: if the guard
`!input.trim() || isLoading` fires, `none` (no state change, no request);
otherwise the state after appending the user turn, clearing the input and
setting `isLoading`, paired with the message list `[...messages, userMessage]`
put in the request body. -/
def sendMessageStart (st : ChatState) : Option (ChatState × List Turn) :=
  if jsTrim st.input = "" || st.isLoading then
    none
  else
    let userMessage : Turn := { role := Role.user, content := st.input }
    let pendingState : ChatState :=
      { st with
        messages := st.messages ++ [userMessage]
        input := ""
        isLoading := true }
    some (pendingState, st.messages ++ [userMessage])

/-- The second half of `sendMessage`: reconcile the fetch outcome.
On `response.ok` append `{role:'assistant', content: data.message}` (a JS
`undefined` content is rendered as the string form); on a non-ok response
append `Error: ` + (`data.error || 'Something went wrong'`); on a rejected
promise append `Error: ` + `error.message`.  The `finally` block clears
`isLoading` on every path. -/
def settleExchange (st : ChatState) (outcome : FetchOutcome) : ChatState :=
  match outcome with
  | FetchOutcome.networkError m =>
      { st with
        messages := st.messages ++ [{ role := Role.assistant, content := "Error: " ++ m }]
        isLoading := false }
  | FetchOutcome.response ok data =>
      if ok then
        { st with
          messages := st.messages ++
            [{ role := Role.assistant, content := data.message.getD "undefined" }]
          isLoading := false }
      else
        { st with
          messages := st.messages ++
            [{ role := Role.assistant,
               content := "Error: " ++ jsOrElse data.error "Something went wrong" }]
          isLoading := false }

/-- The whole `sendMessage` handler: guard, optimistic append, request,
reconciliation.  Returns the final state and, when a request was issued,
the message list that was sent to `/api/chat` (`none` = no request). -/
def sendMessage (st : ChatState) (outcome : FetchOutcome) :
    ChatState × Option (List Turn) :=
  match sendMessageStart st with
  | none => (st, none)
  | some (pendingState, sent) => (settleExchange pendingState outcome, some sent)

/-! ## The inbound `/api/chat` handler (Next.js API route) -/

/-- The shape of `completion.choices[0]?.message?.content`: a choice's
`message` field, itself carrying an optional `content`. -/
structure ChoiceMessage where
  content : Option String
deriving DecidableEq, Repr

/-- One entry of the upstream `choices` list. -/
structure Choice where
  message : Option ChoiceMessage
deriving DecidableEq, Repr

/-- The upstream completion payload: its list of `choices`. -/
structure Completion where
  choices : List Choice
deriving DecidableEq, Repr

/-- `completion.choices[0]?.message?.content` via optional chaining. -/
def replyOf (c : Completion) : Option String :=
  match c.choices.head? with
  | none => none
  | some ch =>
    match ch.message with
    | none => none
    | some msg => msg.content

/-- Outcome of `openrouter.chat.completions.create(...)`: the promise
resolves with a completion, or rejects with an error whose `status`
field may or may not be a transport status code. -/
inductive UpstreamOutcome where
  | success (completion : Completion)
  | failure (status : Option Nat) (errMessage : String)
deriving DecidableEq, Repr

/-- The `messages` field of the request body as the handler sees it:
absent/falsy, present but not an array, or an array of turns.  (An empty
array is truthy in JS and passes the guard.) -/
inductive MessagesField where
  | missing
  | nonArray
  | array (msgs : List Turn)
deriving DecidableEq, Repr

/-- An HTTP response of the handler: its status code and the fields of the
JSON body it writes (`message`, `error`, and the development-only
`details`). -/
structure ApiResponse where
  status : Nat
  message : Option String
  error : Option String
  details : Option String
deriving DecidableEq, Repr

/-- The `/api/chat` handler.  `devMode` is `NODE_ENV === 'development'`.
Returns the response together with the message list forwarded to the
completion gateway, or `none` when no upstream request was made
(non-POST method, or missing/non-array `messages`). -/
def handler (devMode : Bool) (method : String) (body : MessagesField)
    (upstream : UpstreamOutcome) : ApiResponse × Option (List Turn) :=
  if method ≠ "POST" then
    ({ status := 405, message := none, error := some "Method not allowed",
       details := none }, none)
  else
    match body with
    | MessagesField.array msgs =>
      (match upstream with
       | UpstreamOutcome.success c =>
         -- `const reply = completion.choices[0]?.message?.content; if (!reply) ...`:
         -- both an absent content and the empty string are falsy.
         (match replyOf c with
          | some reply =>
            if reply = "" then
              ({ status := 500, message := none, error := some "No response from API",
                 details := none }, some msgs)
            else
              ({ status := 200, message := some reply, error := none,
                 details := none }, some msgs)
          | none =>
            ({ status := 500, message := none, error := some "No response from API",
               details := none }, some msgs))
       | UpstreamOutcome.failure errStatus errMessage =>
         if errStatus = some 401 then
           ({ status := 401, message := none, error := some "Invalid API key",
              details := none }, some msgs)
         else if errStatus = some 429 then
           ({ status := 429, message := none, error := some "Rate limit exceeded",
              details := none }, some msgs)
         else if errStatus = some 402 then
           ({ status := 402, message := none, error := some "Insufficient credits",
              details := none }, some msgs)
         else
           ({ status := 500, message := none, error := some "Internal server error",
              details := if devMode then some errMessage else none }, some msgs))
    | _ =>
      ({ status := 400, message := none, error := some "Messages array is required",
         details := none }, none)

/-! ## Client/handler composition -/

/-- `response.ok`: status in the 200–299 range. -/
def respOk (status : Nat) : Bool :=
  decide (200 ≤ status ∧ status ≤ 299)

/-- The client's `fetch('/api/chat', ...)` when it actually reaches the
handler: a POST with `{ messages: sent }`, whose JSON body the client
reads back as `data.message` / `data.error`. -/
def fetchChat (devMode : Bool) (sent : List Turn)
    (upstream : UpstreamOutcome) : FetchOutcome :=
  let resp := (handler devMode "POST" (MessagesField.array sent) upstream).1
  FetchOutcome.response (respOk resp.status)
    { message := resp.message, error := resp.error }

/-- One whole submit running against the real `/api/chat` handler: the
client half composed with the server half. -/
def submitViaApi (devMode : Bool) (st : ChatState)
    (upstream : UpstreamOutcome) : ChatState :=
  match sendMessageStart st with
  | none => st
  | some (pendingState, sent) =>
      settleExchange pendingState (fetchChat devMode sent upstream)

/-! ## Repeated exchanges (for the log-length invariant) -/

/-- One settled successful exchange: the user types `text`, submits, and
the gateway round trip yields `reply` on an ok response. -/
def runExchange (st : ChatState) (text reply : String) : ChatState :=
  (sendMessage { st with input := text }
    (FetchOutcome.response true { message := some reply, error := none })).1

/-- A sequence of settled successful exchanges, each waiting for the
previous one. -/
def runExchanges (st : ChatState) : List (String × String) → ChatState
  | [] => st
  | (text, reply) :: rest => runExchanges (runExchange st text reply) rest

/-! ## Display preferences: the dark-mode effect -/

/-- The ambient presentation surface touched by the dark-mode effect:
`document.body.style.backgroundColor` and `document.body.style.color`. -/
structure BodyStyle where
  backgroundColor : String
  color : String
deriving DecidableEq, Repr

/-- The `useEffect` on `[darkMode]`: overwrite both ambient colors from
the current flag, ignoring whatever they were. -/
def applyDarkModeEffect (darkMode : Bool) (body : BodyStyle) : BodyStyle :=
  if darkMode then
    { backgroundColor := "#1a1a1a", color := "#ffffff" }
  else
    { backgroundColor := "#f5f5f5", color := "#000000" }

/-- Flipping the Dark Mode checkbox: `setDarkMode(e.target.checked)` with
the checkbox moving to the opposite of its current state. -/
def toggleDarkMode (st : ChatState) : ChatState :=
  { st with darkMode := !st.darkMode }

/-! ## Persistence wrappers (`src/lib/database.js`) -/

/-- JS truthiness of an optional environment string: absent and the empty
string are falsy. -/
def jsTruthyStr (x : Option String) : Bool :=
  match x with
  | some s => s ≠ ""
  | none => false

/-- `supabase !== null`: both `NEXT_PUBLIC_SUPABASE_URL` and
`NEXT_PUBLIC_SUPABASE_ANON_KEY` must be set and non-empty. -/
def supabaseConfigured (url anonKey : Option String) : Bool :=
  jsTruthyStr url && jsTruthyStr anonKey

/-- Outcome of one underlying supabase call as seen by a wrapper: the
query resolves with `data` (possibly `null`), or an error is thrown
(either by the client or by the wrapper's own `if (error) throw error`). -/
def DbCall (α : Type) : Type := Except String α

/-- `initializeDatabase`: logs on every path and returns `undefined`
regardless of the three rpc outcomes; nothing propagates. -/
def initializeDatabase (configured : Bool)
    (rpcResults : List (DbCall Unit)) : Unit :=
  match configured, rpcResults with
  | _, _ => ()

/-- `saveConversation`: `null` when unconfigured; otherwise the inserted
row, with any thrown error caught and converted to `null`. -/
def saveConversation {α : Type} (configured : Bool)
    (call : DbCall (Option α)) : Option α :=
  if configured then
    match call with
    | Except.ok data => data
    | Except.error _ => none
  else none

/-- `saveMessage`: same shape as `saveConversation`. -/
def saveMessage {α : Type} (configured : Bool)
    (call : DbCall (Option α)) : Option α :=
  if configured then
    match call with
    | Except.ok data => data
    | Except.error _ => none
  else none

/-- `getConversationHistory`: `[]` when unconfigured; on success
`data || []`; any thrown error is caught and converted to `[]`. -/
def getConversationHistory {α : Type} (configured : Bool)
    (call : DbCall (Option (List α))) : List α :=
  if configured then
    match call with
    | Except.ok data => data.getD []
    | Except.error _ => []
  else []

/-- `getUserConversations`: same shape as `getConversationHistory`. -/
def getUserConversations {α : Type} (configured : Bool)
    (call : DbCall (Option (List α))) : List α :=
  if configured then
    match call with
    | Except.ok data => data.getD []
    | Except.error _ => []
  else []

/-- `createUser`: same shape as `saveConversation`. -/
def createUser {α : Type} (configured : Bool)
    (call : DbCall (Option α)) : Option α :=
  if configured then
    match call with
    | Except.ok data => data
    | Except.error _ => none
  else none

/-- `getUserById`: `.single()` row fetch with the same error shape. -/
def getUserById {α : Type} (configured : Bool)
    (call : DbCall (Option α)) : Option α :=
  if configured then
    match call with
    | Except.ok data => data
    | Except.error _ => none
  else none

/-- A fetch outcome that is a failure from the controller's point of view:
a rejected promise or a non-ok response. -/
def isFailureOutcome : FetchOutcome → Bool
  | FetchOutcome.networkError _ => true
  | FetchOutcome.response ok _ => !ok

/-! ## Helper lemmas -/

/-- When the guard passes, `sendMessage` reaches the fetch with the user
turn appended, the input cleared and the pending flag set. -/
lemma sendMessageStart_eq_some (st : ChatState)
    (h1 : jsTrim st.input ≠ "") (h2 : st.isLoading = false) :
    sendMessageStart st = some
      ({ st with
          messages := st.messages ++ [{ role := Role.user, content := st.input }]
          input := ""
          isLoading := true },
        st.messages ++ [{ role := Role.user, content := st.input }]) := by
  simp [sendMessageStart, h1, h2]

/-- When the guard fires, `sendMessage` does nothing at all. -/
lemma sendMessageStart_eq_none (st : ChatState)
    (h : jsTrim st.input = "" ∨ st.isLoading = true) :
    sendMessageStart st = none := by
  rcases h with h | h <;> simp [sendMessageStart, h]

/-- When the guard passes, the request body sent to `/api/chat` is the
whole log with the new user turn. -/
lemma sendMessage_sent (st : ChatState) (o : FetchOutcome)
    (h1 : jsTrim st.input ≠ "") (h2 : st.isLoading = false) :
    (sendMessage st o).2
      = some (st.messages ++ [{ role := Role.user, content := st.input }]) := by
  simp [sendMessage, sendMessageStart_eq_some st h1 h2]

/-- A settled successful exchange appends exactly the user/assistant pair
and ends not loading. -/
lemma runExchange_spec (st : ChatState) (t r : String)
    (ht : jsTrim t ≠ "") (hl : st.isLoading = false) :
    runExchange st t r =
      { st with
        messages := st.messages ++
          [{ role := Role.user, content := t },
           { role := Role.assistant, content := r }]
        input := ""
        isLoading := false } := by
  simp [runExchange, sendMessage, sendMessageStart, settleExchange, ht, hl]

/-- Generalized log-length invariant for a run of settled successful
exchanges. -/
lemma runExchanges_spec (l : List (String × String)) (st : ChatState)
    (hl : st.isLoading = false) (hall : ∀ p ∈ l, jsTrim p.1 ≠ "") :
    (runExchanges st l).messages.length = st.messages.length + 2 * l.length ∧
    (runExchanges st l).isLoading = false := by
  induction l generalizing st with
  | nil => simpa [runExchanges] using hl
  | cons p rest ih =>
    obtain ⟨t, r⟩ := p
    have ht : jsTrim t ≠ "" := hall (t, r) (by simp)
    rw [runExchanges, runExchange_spec st t r ht hl]
    have h := ih
      { st with
        messages := st.messages ++
          [{ role := Role.user, content := t },
           { role := Role.assistant, content := r }]
        input := ""
        isLoading := false }
      rfl (fun q hq => hall q (by simp [hq]))
    refine ⟨?_, h.2⟩
    rw [h.1]
    simp
    omega

/-! ## Claim theorems -/

/-- Claim C1: a submit with non-empty trimmed text and no pending exchange
first appends the user turn, clears the input and sets pending; the message
list sent to the gateway equals the whole log including the new user turn;
and on an ok reply the reply text is appended as an assistant turn with
pending ending false. -/
theorem submit_success_exchange (st : ChatState) (m : String) (e : Option String)
    (h1 : jsTrim st.input ≠ "") (h2 : st.isLoading = false) :
    ∃ pendingState sent,
      sendMessageStart st = some (pendingState, sent) ∧
      pendingState.messages = st.messages ++ [{ role := Role.user, content := st.input }] ∧
      pendingState.input = "" ∧
      pendingState.isLoading = true ∧
      sent = pendingState.messages ∧
      (sendMessage st (FetchOutcome.response true { message := some m, error := e })).2
        = some sent ∧
      (sendMessage st (FetchOutcome.response true { message := some m, error := e })).1.messages
        = st.messages ++
            [{ role := Role.user, content := st.input },
             { role := Role.assistant, content := m }] ∧
      (sendMessage st (FetchOutcome.response true { message := some m, error := e })).1.isLoading
        = false := by
  refine ⟨_, _, sendMessageStart_eq_some st h1 h2, rfl, rfl, rfl, rfl, ?_, ?_, ?_⟩ <;>
    simp [sendMessage, sendMessageStart_eq_some st h1 h2, settleExchange]

/-- Witness for C1 at the spec's scenario: submit "Hello" and receive
"Hi there!". -/
theorem submit_success_exchange_witness :
    jsTrim (initialState.input ++ "Hello") ≠ "" ∧
    (sendMessage { initialState with input := "Hello" }
        (FetchOutcome.response true { message := some "Hi there!", error := none })).1.messages
      = initialMessages ++
          [{ role := Role.user, content := "Hello" },
           { role := Role.assistant, content := "Hi there!" }] := by
  refine ⟨by decide, ?_⟩
  have h := submit_success_exchange { initialState with input := "Hello" }
    "Hi there!" none (by decide) rfl
  exact h.choose_spec.choose_spec.2.2.2.2.2.2.1

/-- Claim C2: starting from the seeded one-turn assistant log, after `k`
settled successful exchanges with non-empty texts the log has length
exactly `1 + 2 * k`. -/
theorem log_length_after_exchanges (l : List (String × String))
    (hall : ∀ p ∈ l, jsTrim p.1 ≠ "") :
    initialState.messages.length = 1 ∧
    (∀ t ∈ initialState.messages, t.role = Role.assistant) ∧
    (runExchanges initialState l).messages.length = 1 + 2 * l.length := by
  refine ⟨rfl, by decide, ?_⟩
  have h := (runExchanges_spec l initialState rfl hall).1
  rw [h]
  rfl

/-- Witness for C2 with two concrete exchanges: the log reaches length 5. -/
theorem log_length_after_exchanges_witness :
    (∀ p ∈ [("Hello", "Hi there!"), ("How are you?", "Fine!")], jsTrim p.1 ≠ "") ∧
    (runExchanges initialState
        [("Hello", "Hi there!"), ("How are you?", "Fine!")]).messages.length = 5 := by
  refine ⟨by decide, ?_⟩
  exact (log_length_after_exchanges _ (by decide)).2.2

/-- Claim C3: an empty/whitespace-only submit, or a submit while pending,
is a complete no-op: state unchanged (so the log unchanged and pending not
set) and no request issued; the embedding is total, so nothing is raised. -/
theorem submit_guard_noop (st : ChatState) (o : FetchOutcome)
    (h : jsTrim st.input = "" ∨ st.isLoading = true) :
    sendMessage st o = (st, none) := by
  simp [sendMessage, sendMessageStart_eq_none st h]

/-- Witness for C3: submitting the empty string from the initial state, and
submitting non-empty text while pending, both change nothing. -/
theorem submit_guard_noop_witness :
    (jsTrim initialState.input = "" ∨ initialState.isLoading = true) ∧
    sendMessage initialState (FetchOutcome.networkError "x") = (initialState, none) ∧
    sendMessage { initialState with input := "Hello", isLoading := true }
        (FetchOutcome.networkError "x")
      = ({ initialState with input := "Hello", isLoading := true }, none) := by
  refine ⟨Or.inl (by decide), ?_, ?_⟩
  · exact submit_guard_noop initialState _ (Or.inl (by decide))
  · exact submit_guard_noop _ _ (Or.inr rfl)

/-- Claim C4: after any gateway failure (rejected fetch or non-ok
response) the last log turn is an assistant turn whose content is
`"Error: "` followed by a diagnostic, and pending is false. -/
theorem failure_appends_error_turn (st : ChatState) (o : FetchOutcome)
    (h1 : jsTrim st.input ≠ "") (h2 : st.isLoading = false)
    (hf : isFailureOutcome o = true) :
    ∃ t : Turn,
      (sendMessage st o).1.messages.getLast? = some t ∧
      t.role = Role.assistant ∧
      (∃ diag, t.content = "Error: " ++ diag) ∧
      (sendMessage st o).1.isLoading = false := by
  cases o with
  | networkError m =>
    refine ⟨{ role := Role.assistant, content := "Error: " ++ m }, ?_, rfl, ⟨m, rfl⟩, ?_⟩ <;>
      simp [sendMessage, sendMessageStart_eq_some st h1 h2, settleExchange]
  | response ok data =>
    have hok : ok = false := by simpa [isFailureOutcome] using hf
    subst hok
    refine ⟨{ role := Role.assistant,
              content := "Error: " ++ jsOrElse data.error "Something went wrong" },
      ?_, rfl, ⟨_, rfl⟩, ?_⟩ <;>
      simp [sendMessage, sendMessageStart_eq_some st h1 h2, settleExchange]

/-- Witness for C4: a non-ok response with no error field yields the
generic error turn. -/
theorem failure_appends_error_turn_witness :
    jsTrim "Hello" ≠ "" ∧
    ∃ t : Turn,
      (sendMessage { initialState with input := "Hello" }
          (FetchOutcome.response false { message := none, error := none })).1.messages.getLast?
        = some t ∧
      t.role = Role.assistant ∧
      (∃ diag, t.content = "Error: " ++ diag) ∧
      (sendMessage { initialState with input := "Hello" }
          (FetchOutcome.response false { message := none, error := none })).1.isLoading
        = false := by
  refine ⟨by decide, ?_⟩
  exact failure_appends_error_turn { initialState with input := "Hello" }
    (FetchOutcome.response false { message := none, error := none })
    (by decide) rfl rfl

/-- Claim C5: the handler maps exactly 401, 429 and 402 to their named
failure bodies, maps every other thrown upstream failure to a generic
500 "Internal server error", and a submit that hits an upstream 401 ends
with the final log turn `{assistant, "Error: Invalid API key"}` and
pending false. -/
theorem error_classification :
    (∀ (dev : Bool) (msgs : List Turn) (m : String),
      handler dev "POST" (MessagesField.array msgs)
          (UpstreamOutcome.failure (some 401) m)
        = ({ status := 401, message := none, error := some "Invalid API key",
             details := none }, some msgs)) ∧
    (∀ (dev : Bool) (msgs : List Turn) (m : String),
      handler dev "POST" (MessagesField.array msgs)
          (UpstreamOutcome.failure (some 429) m)
        = ({ status := 429, message := none, error := some "Rate limit exceeded",
             details := none }, some msgs)) ∧
    (∀ (dev : Bool) (msgs : List Turn) (m : String),
      handler dev "POST" (MessagesField.array msgs)
          (UpstreamOutcome.failure (some 402) m)
        = ({ status := 402, message := none, error := some "Insufficient credits",
             details := none }, some msgs)) ∧
    (∀ (dev : Bool) (msgs : List Turn) (s : Option Nat) (m : String),
      s ≠ some 401 → s ≠ some 429 → s ≠ some 402 →
      (handler dev "POST" (MessagesField.array msgs)
          (UpstreamOutcome.failure s m)).1.status = 500 ∧
      (handler dev "POST" (MessagesField.array msgs)
          (UpstreamOutcome.failure s m)).1.error = some "Internal server error") ∧
    (∀ (dev : Bool) (st : ChatState) (m : String),
      jsTrim st.input ≠ "" → st.isLoading = false →
      (submitViaApi dev st (UpstreamOutcome.failure (some 401) m)).messages.getLast?
        = some { role := Role.assistant, content := "Error: Invalid API key" } ∧
      (submitViaApi dev st (UpstreamOutcome.failure (some 401) m)).isLoading = false) := by
  refine ⟨fun dev msgs m => rfl, fun dev msgs m => rfl, fun dev msgs m => rfl,
    ?_, ?_⟩
  · intro dev msgs s m h1 h2 h3
    constructor <;> simp [handler, h1, h2, h3]
  · intro dev st m h1 h2
    constructor <;>
      simp [submitViaApi, sendMessageStart_eq_some st h1 h2, fetchChat, handler,
        settleExchange, respOk, jsOrElse]

/-- Witness for C5: a statusless upstream failure is a generic 500, and the
401 scenario ends the log with the named error turn. -/
theorem error_classification_witness :
    ((none : Option Nat) ≠ some 401 ∧ jsTrim "Hello" ≠ "") ∧
    (handler false "POST" (MessagesField.array [])
        (UpstreamOutcome.failure none "boom")).1.status = 500 ∧
    (submitViaApi false { initialState with input := "Hello" }
        (UpstreamOutcome.failure (some 401) "x")).messages.getLast?
      = some { role := Role.assistant, content := "Error: Invalid API key" } := by
  refine ⟨⟨by decide, by decide⟩, ?_, ?_⟩
  · exact (error_classification.2.2.2.1 false [] none "boom"
      (by decide) (by decide) (by decide)).1
  · exact (error_classification.2.2.2.2 false { initialState with input := "Hello" }
      "x" (by decide) rfl).1

/-- Claim C6: a non-POST method gets a 405 error body and a missing or
non-array `messages` field gets a 400 error body; in both cases no request
is forwarded to the completion gateway. -/
theorem request_validation :
    (∀ (dev : Bool) (method : String) (body : MessagesField)
        (up : UpstreamOutcome), method ≠ "POST" →
      handler dev method body up
        = ({ status := 405, message := none, error := some "Method not allowed",
             details := none }, none)) ∧
    (∀ (dev : Bool) (up : UpstreamOutcome),
      handler dev "POST" MessagesField.missing up
        = ({ status := 400, message := none,
             error := some "Messages array is required", details := none }, none)) ∧
    (∀ (dev : Bool) (up : UpstreamOutcome),
      handler dev "POST" MessagesField.nonArray up
        = ({ status := 400, message := none,
             error := some "Messages array is required", details := none }, none)) := by
  refine ⟨?_, fun dev up => rfl, fun dev up => rfl⟩
  intro dev method body up h
  simp [handler, h]

/-- Witness for C6: a GET request is answered 405 without any gateway
call. -/
theorem request_validation_witness :
    "GET" ≠ "POST" ∧
    handler false "GET" MessagesField.missing
        (UpstreamOutcome.failure none "unused")
      = ({ status := 405, message := none, error := some "Method not allowed",
           details := none }, none) := by
  exact ⟨by decide, request_validation.1 false "GET" MessagesField.missing
    (UpstreamOutcome.failure none "unused") (by decide)⟩

/-- Claim C7: a successful upstream completion with no usable reply text
(absent or empty first-choice content) is normalized to a 500 with an
error body, and the composed submit therefore appends an assistant turn
prefixed with `Error: `. -/
theorem empty_reply_normalized :
    (∀ (dev : Bool) (msgs : List Turn) (c : Completion),
      replyOf c = none →
      handler dev "POST" (MessagesField.array msgs) (UpstreamOutcome.success c)
        = ({ status := 500, message := none, error := some "No response from API",
             details := none }, some msgs)) ∧
    (∀ (dev : Bool) (msgs : List Turn) (c : Completion),
      replyOf c = some "" →
      handler dev "POST" (MessagesField.array msgs) (UpstreamOutcome.success c)
        = ({ status := 500, message := none, error := some "No response from API",
             details := none }, some msgs)) ∧
    (∀ (dev : Bool) (st : ChatState) (c : Completion),
      jsTrim st.input ≠ "" → st.isLoading = false →
      (replyOf c = none ∨ replyOf c = some "") →
      (submitViaApi dev st (UpstreamOutcome.success c)).messages.getLast?
        = some { role := Role.assistant, content := "Error: No response from API" } ∧
      (submitViaApi dev st (UpstreamOutcome.success c)).isLoading = false) := by
  refine ⟨?_, ?_, ?_⟩
  · intro dev msgs c h
    simp [handler, h]
  · intro dev msgs c h
    simp [handler, h]
  · intro dev st c h1 h2 hc
    have hbranch :
        (handler dev "POST" (MessagesField.array
            (st.messages ++ [{ role := Role.user, content := st.input }]))
          (UpstreamOutcome.success c)).1
        = { status := 500, message := none, error := some "No response from API",
            details := none } := by
      rcases hc with h | h <;> simp [handler, h]
    constructor <;>
      simp [submitViaApi, sendMessageStart_eq_some st h1 h2, fetchChat, hbranch,
        settleExchange, respOk, jsOrElse]

/-- Witness for C7: an empty `choices` list yields the 500 normalization
and the composed error turn. -/
theorem empty_reply_normalized_witness :
    (replyOf { choices := [] } = none ∧ jsTrim "Hello" ≠ "") ∧
    (handler false "POST" (MessagesField.array [])
        (UpstreamOutcome.success { choices := [] })).1.status = 500 ∧
    (submitViaApi false { initialState with input := "Hello" }
        (UpstreamOutcome.success { choices := [] })).messages.getLast?
      = some { role := Role.assistant, content := "Error: No response from API" } := by
  refine ⟨⟨rfl, by decide⟩, ?_, ?_⟩
  · have h := empty_reply_normalized.1 false [] { choices := [] } rfl
    rw [h]
  · exact (empty_reply_normalized.2.2 false { initialState with input := "Hello" }
      { choices := [] } (by decide) rfl (Or.inl rfl)).1

/-- Claim C8: no persistence wrapper ever propagates a failure: with the
client unconfigured (absent or empty credentials) single-record operations
return null and list operations return the empty list, and the same holds
when the underlying call throws; `initializeDatabase` returns unit on
every path. -/
theorem persistence_never_propagates :
    (∀ k : Option String, supabaseConfigured none k = false) ∧
    (∀ u : Option String, supabaseConfigured u none = false) ∧
    (supabaseConfigured (some "") (some "k") = false) ∧
    (∀ (cfg : Bool) (res : List (DbCall Unit)), initializeDatabase cfg res = ()) ∧
    (∀ (α : Type) (c : DbCall (Option α)), saveConversation false c = none) ∧
    (∀ (α : Type) (e : String),
      saveConversation (α := α) true (Except.error e) = none) ∧
    (∀ (α : Type) (c : DbCall (Option α)), saveMessage false c = none) ∧
    (∀ (α : Type) (e : String), saveMessage (α := α) true (Except.error e) = none) ∧
    (∀ (α : Type) (c : DbCall (Option (List α))), getConversationHistory false c = []) ∧
    (∀ (α : Type) (e : String),
      getConversationHistory (α := α) true (Except.error e) = []) ∧
    (∀ (α : Type) (c : DbCall (Option (List α))), getUserConversations false c = []) ∧
    (∀ (α : Type) (e : String),
      getUserConversations (α := α) true (Except.error e) = []) ∧
    (∀ (α : Type) (c : DbCall (Option α)), createUser false c = none) ∧
    (∀ (α : Type) (e : String), createUser (α := α) true (Except.error e) = none) ∧
    (∀ (α : Type) (c : DbCall (Option α)), getUserById false c = none) ∧
    (∀ (α : Type) (e : String), getUserById (α := α) true (Except.error e) = none) := by
  refine ⟨fun k => rfl, ?_, rfl, fun cfg res => rfl,
    fun α c => rfl, fun α e => rfl, fun α c => rfl, fun α e => rfl,
    fun α c => rfl, fun α e => rfl, fun α c => rfl, fun α e => rfl,
    fun α c => rfl, fun α e => rfl, fun α c => rfl, fun α e => rfl⟩
  intro u
  simp [supabaseConfigured, jsTruthyStr]

/-- Claim C9: toggling the theme twice restores the ambient background and
foreground colors exactly, for every starting state and every prior body
style. -/
theorem dark_mode_double_toggle (st : ChatState) (body0 : BodyStyle) :
    (toggleDarkMode (toggleDarkMode st)).darkMode = st.darkMode ∧
    applyDarkModeEffect (toggleDarkMode (toggleDarkMode st)).darkMode body0
      = applyDarkModeEffect st.darkMode body0 := by
  constructor <;> simp [toggleDarkMode]

/-- Claim C10: a failed exchange stores its error turn with role
assistant, and the next submit transmits the whole log — error turn
included — to the gateway. -/
theorem error_turn_resubmitted (st : ChatState) (o : FetchOutcome)
    (t2 : String) (o2 : FetchOutcome)
    (h1 : jsTrim st.input ≠ "") (h2 : st.isLoading = false)
    (hf : isFailureOutcome o = true) (h3 : jsTrim t2 ≠ "") :
    ∃ errTurn : Turn,
      (sendMessage st o).1.messages.getLast? = some errTurn ∧
      errTurn.role = Role.assistant ∧
      (∃ diag, errTurn.content = "Error: " ++ diag) ∧
      (sendMessage { (sendMessage st o).1 with input := t2 } o2).2
        = some ((sendMessage st o).1.messages ++
            [{ role := Role.user, content := t2 }]) ∧
      errTurn ∈ (sendMessage st o).1.messages := by
  have hload : (sendMessage st o).1.isLoading = false := by
    cases o with
    | networkError m =>
      simp [sendMessage, sendMessageStart_eq_some st h1 h2, settleExchange]
    | response ok data =>
      cases ok <;>
        simp [sendMessage, sendMessageStart_eq_some st h1 h2, settleExchange]
  have hsent :
      (sendMessage { (sendMessage st o).1 with input := t2 } o2).2
        = some ((sendMessage st o).1.messages ++
            [{ role := Role.user, content := t2 }]) := by
    have h := sendMessage_sent { (sendMessage st o).1 with input := t2 } o2
      (by simpa using h3) (by simpa using hload)
    simpa using h
  cases o with
  | networkError m =>
    refine ⟨{ role := Role.assistant, content := "Error: " ++ m },
      ?_, rfl, ⟨m, rfl⟩, hsent, ?_⟩ <;>
      simp [sendMessage, sendMessageStart_eq_some st h1 h2, settleExchange]
  | response ok data =>
    have hok : ok = false := by simpa [isFailureOutcome] using hf
    subst hok
    refine ⟨{ role := Role.assistant,
              content := "Error: " ++ jsOrElse data.error "Something went wrong" },
      ?_, rfl, ⟨_, rfl⟩, hsent, ?_⟩ <;>
      simp [sendMessage, sendMessageStart_eq_some st h1 h2, settleExchange]

/-- Witness for C10: after a rate-limit failure the stored error turn is
re-sent on the next submit. -/
theorem error_turn_resubmitted_witness :
    (jsTrim "Hello" ≠ "" ∧ jsTrim "again" ≠ "") ∧
    ∃ errTurn : Turn,
      (sendMessage { initialState with input := "Hello" }
          (FetchOutcome.response false
            { message := none, error := some "Rate limit exceeded" })).1.messages.getLast?
        = some errTurn ∧
      errTurn.role = Role.assistant ∧
      (∃ diag, errTurn.content = "Error: " ++ diag) ∧
      (sendMessage
          { (sendMessage { initialState with input := "Hello" }
              (FetchOutcome.response false
                { message := none, error := some "Rate limit exceeded" })).1 with
            input := "again" }
          (FetchOutcome.response true { message := some "r", error := none })).2
        = some ((sendMessage { initialState with input := "Hello" }
            (FetchOutcome.response false
              { message := none, error := some "Rate limit exceeded" })).1.messages ++
            [{ role := Role.user, content := "again" }]) ∧
      errTurn ∈ (sendMessage { initialState with input := "Hello" }
          (FetchOutcome.response false
            { message := none, error := some "Rate limit exceeded" })).1.messages := by
  refine ⟨⟨by decide, by decide⟩, ?_⟩
  exact error_turn_resubmitted { initialState with input := "Hello" }
    (FetchOutcome.response false { message := none, error := some "Rate limit exceeded" })
    "again" (FetchOutcome.response true { message := some "r", error := none })
    (by decide) rfl rfl (by decide)

end Chatbot
